import Mathlib

/-!
Verification of `examples/offline_inference/vision_language_pooling.py`.

The file is embedded shallowly:
* Python `TypedDict` query variants become an inductive `Query` whose
  `modality` tag is determined by the constructor.
* The external collaborators (PIL images fetched from URLs, the
  `ScoreMultiModalParam` payload) are embedded as records carrying exactly
  the data the script puts into them.
* `EngineArgs` is external to the example file; it is modelled from the
  spec as the record of the fields the script reads or writes.
* Python dict literals and the `|` merge operator become association lists
  over `String` keys with `pyLookup`/`pyMerge` implementing Python dict
  lookup and merge semantics (right operand wins, insertion order kept).
* `raise ValueError(...)` becomes `Except.error` carrying the message, so
  an adapter or driver that raises returns `Except.error` and constructs
  no engine configuration.
* The drivers `run_encode`/`run_score` are embedded up to the boundary of
  the external engine call: they return the keyword-argument dictionary
  handed to the `LLM` constructor together with the request payload the
  one engine call would receive (prompt and multimodal dict for
  `run_encode`, query and documents for `run_score`).
-/

set_option autoImplicit false

namespace VLPool

/-- Python dict lookup `d[k]`/`d.get(k)` on an association list: the first
binding of the key wins (association lists built here have unique keys). -/
def pyLookup {α : Type} (d : List (String × α)) (k : String) : Option α :=
  match d with
  | [] => none
  | (k₁, v) :: rest => if k = k₁ then some v else pyLookup rest k

/-- Python dict merge `a | b`: keys of `a` in order with values overridden
by `b` where `b` binds them, followed by the bindings of `b` whose keys are
not in `a`. -/
def pyMerge {α : Type} (a b : List (String × α)) : List (String × α) :=
  (a.map (fun kv => (kv.1, (pyLookup b kv.1).getD kv.2)))
    ++ b.filter (fun kv => (pyLookup a kv.1).isNone)

/-- Modelled from the spec: the remote content fetch resolves an image URL
to an in-memory image handle (`PIL.Image.Image` via `fetch_image`); the
handle is embedded as the URL it was fetched from. -/
structure Image where
  url : String
  deriving DecidableEq, Repr

/-- Modelled from the spec: `fetch_image` of `vllm.multimodal.utils`,
resolving a URL to an image handle. Failure modes are not handled in the
example file, so the embedding is total. -/
def fetch_image (url : String) : Image := { url := url }

/-- One `image_url` reference inside a `ScoreMultiModalParam`. -/
structure ImageURL where
  url : String
  deriving DecidableEq, Repr

/-- One content item of a `ScoreMultiModalParam`, e.g.
`("type": "image_url", "image_url": ...)`. -/
structure ContentItem where
  type : String
  image_url : ImageURL
  deriving DecidableEq, Repr

/-- Modelled from the spec: `ScoreMultiModalParam` of
`vllm.entrypoints.score_utils`, a collection of image references used as
the document collection for scoring. -/
structure ScoreMultiModalParam where
  content : List ContentItem
  deriving DecidableEq, Repr

/-- The `Query` union: `TextQuery`, `ImageQuery`, `TextImageQuery`,
`TextImagesQuery`. Each Python `TypedDict` variant carries a literal
`modality` tag; here the tag is determined by the constructor. -/
inductive Query where
  | textQ (text : String)
  | imageQ (image : Image)
  | textImageQ (text : String) (image : Image)
  | textImagesQ (text : String) (image : ScoreMultiModalParam)
  deriving DecidableEq, Repr

/-- The `modality` tag stored in each query variant. -/
def Query.modality : Query → String
  | .textQ _ => "text"
  | .imageQ _ => "image"
  | .textImageQ _ _ => "text+image"
  | .textImagesQ _ _ => "text+images"

/-- Modelled from the spec: `EngineArgs` is external to the example file;
the spec describes the engine configuration as an immutable record of
model name, runner mode, context-length cap, trust flag, processor keyword
arguments and per-modality input-count limits, plus the seed patched in by
the drivers. Exactly those fields are modelled, with the defaults the
script relies on (`trust_remote_code` false, the rest absent). -/
structure EngineArgs where
  model : String
  runner : String
  max_model_len : Nat
  trust_remote_code : Bool := false
  mm_processor_kwargs : Option (List (String × Nat)) := none
  limit_mm_per_prompt : Option (List (String × Nat)) := none
  seed : Option Int := none
  deriving DecidableEq, Repr

/-- `ModelRequestData`: the adapter output bundling the engine
configuration with the optional prompt/image (embedding shape) or
query/documents (scoring shape). -/
structure ModelRequestData where
  engine_args : EngineArgs
  prompt : Option String := none
  image : Option Image := none
  query : Option String := none
  documents : Option ScoreMultiModalParam := none
  deriving DecidableEq, Repr

/-- The `llama3_template` format string of `run_e5_v`; Python
`template.format(x)` substitutes `x` for the single placeholder. -/
def llama3_template (x : String) : String :=
  "<|start_header_id|>user<|end_header_id|>\n\n" ++ x
    ++ "<|eot_id|><|start_header_id|>assistant<|end_header_id|>\n\n \n"

/-- Adapter A, `run_e5_v`: accepts `text` and `image` queries, raises the
unsupported-modality `ValueError` otherwise; the engine configuration is
built only after the modality branch succeeds. -/
def run_e5_v (query : Query) : Except String ModelRequestData := do
  let (prompt, image) ←
    match query with
    | .textQ text =>
        Except.ok
          (llama3_template (text ++ "\nSummary above sentence in one word: "),
           (none : Option Image))
    | .imageQ image =>
        Except.ok (llama3_template "<image>\nSummary above image in one word: ", some image)
    | q =>
        Except.error ("Unsupported query modality: \x27" ++ q.modality ++ "\x27")
  let engine_args : EngineArgs :=
    { model := "royokong/e5-v",
      runner := "pooling",
      max_model_len := 4096,
      limit_mm_per_prompt := some [("image", 1)] }
  Except.ok { engine_args := engine_args, prompt := some prompt, image := image }

/-- Adapter B, `run_vlm2vec`: accepts `text`, `image` and `text+image`
queries, raises the unsupported-modality `ValueError` otherwise. -/
def run_vlm2vec (query : Query) : Except String ModelRequestData := do
  let (prompt, image) ←
    match query with
    | .textQ text =>
        Except.ok
          ("Find me an everyday image that matches the given caption: " ++ text,
           (none : Option Image))
    | .imageQ image =>
        Except.ok
          ("<|image_1|> Find a day-to-day image that looks similar to the provided image.",
           some image)
    | .textImageQ text image =>
        Except.ok
          ("<|image_1|> Represent the given image with the following question: " ++ text,
           some image)
    | q =>
        Except.error ("Unsupported query modality: \x27" ++ q.modality ++ "\x27")
  let engine_args : EngineArgs :=
    { model := "TIGER-Lab/VLM2Vec-Full",
      runner := "pooling",
      max_model_len := 4096,
      trust_remote_code := true,
      mm_processor_kwargs := some [("num_crops", 4)],
      limit_mm_per_prompt := some [("image", 1)] }
  Except.ok { engine_args := engine_args, prompt := some prompt, image := image }

/-- Adapter C, `run_jinavl_reranker`: accepts only `text+images` queries
(the guard `query["modality"] != "text+images"` raises first), and returns
the scoring-shaped request with the text as query string and the image
collection as documents. -/
def run_jinavl_reranker (query : Query) : Except String ModelRequestData :=
  match query with
  | .textImagesQ text image =>
      Except.ok
        { engine_args :=
            { model := "jinaai/jina-reranker-m0",
              runner := "pooling",
              max_model_len := 32768,
              trust_remote_code := true,
              mm_processor_kwargs := some [("min_pixels", 3136), ("max_pixels", 602112)],
              limit_mm_per_prompt := some [("image", 1)] },
          query := some text,
          documents := some image }
  | q =>
      Except.error ("Unsupported query modality: \x27" ++ q.modality ++ "\x27")

/-- The document collection built by `get_query` for `text+images`. -/
def jina_documents : ScoreMultiModalParam :=
  { content :=
      [{ type := "image_url",
         image_url :=
          { url := "https://raw.githubusercontent.com/jina-ai/multimodal-reranker-test/main/handelsblatt-preview.png" } },
       { type := "image_url",
         image_url :=
          { url := "https://raw.githubusercontent.com/jina-ai/multimodal-reranker-test/main/paper-11.png" } }] }

/-- `get_query`: builds the fixed sample query for each of the four
modality tags and raises `ValueError` for any other value. The modality
argument is a plain string, as in the (stringly-typed) source. -/
def get_query (modality : String) : Except String Query :=
  if modality = "text" then
    Except.ok (.textQ "A dog sitting in the grass")
  else if modality = "image" then
    Except.ok (.imageQ (fetch_image
      "https://upload.wikimedia.org/wikipedia/commons/thumb/4/47/American_Eskimo_Dog.jpg/360px-American_Eskimo_Dog.jpg"))
  else if modality = "text+image" then
    Except.ok (.textImageQ "A cat standing in the snow."
      (fetch_image
        "https://upload.wikimedia.org/wikipedia/commons/thumb/b/b6/Felis_catus-cat_on_snow.jpg/179px-Felis_catus-cat_on_snow.jpg"))
  else if modality = "text+images" then
    Except.ok (.textImagesQ "slm markdown" jina_documents)
  else
    Except.error ("Modality " ++ modality ++ " is not supported.")

/-- The dispatch table `model_example_map`: model key to adapter. -/
def model_example_map : List (String × (Query → Except String ModelRequestData)) :=
  [("e5_v", run_e5_v),
   ("vlm2vec", run_vlm2vec),
   ("jinavl_reranker", run_jinavl_reranker)]

/-- `model_example_map[model]`; a missing key is Python's `KeyError`. -/
def lookupAdapter (model : String) : Except String (Query → Except String ModelRequestData) :=
  match pyLookup model_example_map model with
  | some f => Except.ok f
  | none => Except.error ("KeyError: \x27" ++ model ++ "\x27")

/-- One field value of the keyword-argument dictionary obtained from
`asdict(engine_args)`. -/
inductive Value where
  | vStr (s : String)
  | vNat (n : Nat)
  | vBool (b : Bool)
  | vOptInt (i : Option Int)
  | vOptDict (d : Option (List (String × Nat)))
  deriving DecidableEq, Repr

/-- `asdict(engine_args)`: the dataclass rendered as a dictionary, one
entry per field in declaration order. -/
def asdict (ea : EngineArgs) : List (String × Value) :=
  [("model", .vStr ea.model),
   ("runner", .vStr ea.runner),
   ("max_model_len", .vNat ea.max_model_len),
   ("trust_remote_code", .vBool ea.trust_remote_code),
   ("mm_processor_kwargs", .vOptDict ea.mm_processor_kwargs),
   ("limit_mm_per_prompt", .vOptDict ea.limit_mm_per_prompt),
   ("seed", .vOptInt ea.seed)]

/-- The seed-merge step shared by both drivers:
`asdict(req_data.engine_args) | ("seed": seed)`, the keyword-argument
dictionary handed to the `LLM` constructor. -/
def seedMerge (ea : EngineArgs) (seed : Option Int) : List (String × Value) :=
  pyMerge (asdict ea) [("seed", Value.vOptInt seed)]

/-- The `default_limits` dict of `run_encode`. -/
def default_limits : List (String × Nat) :=
  [("image", 0), ("video", 0), ("audio", 0)]

/-- The limit patch of `run_encode`:
`default_limits | dict(engine_args.limit_mm_per_prompt or ())`, written
back into the configuration. -/
def patchLimits (ea : EngineArgs) : EngineArgs :=
  { ea with limit_mm_per_prompt := some (pyMerge default_limits (ea.limit_mm_per_prompt.getD [])) }

/-- The multimodal data payload of `run_encode`: starts empty and gains an
`image` entry exactly when the request carries an image. -/
def mmDataOf (image : Option Image) : List (String × Image) :=
  match image with
  | some img => [("image", img)]
  | none => []

/-- What `run_encode` hands to the outside world: the keyword arguments of
the `LLM` constructor and the prompt-plus-multimodal payload of the one
`llm.embed` call. -/
structure EncodeCall where
  kwargs : List (String × Value)
  prompt : Option String
  mm : List (String × Image)
  deriving DecidableEq, Repr

/-- What `run_score` hands to the outside world: the keyword arguments of
the `LLM` constructor and the query/documents of the one `llm.score`
call. -/
structure ScoreCall where
  kwargs : List (String × Value)
  query : Option String
  documents : Option ScoreMultiModalParam
  deriving DecidableEq, Repr

/-- Driver `run_encode`: query build, adapter lookup and call, limit
patch, seed merge, then the engine call payload. A `ValueError` raised by
an earlier step propagates (the nested matches) and no engine
configuration is produced. -/
def run_encode (model modality : String) (seed : Option Int) : Except String EncodeCall :=
  match get_query modality with
  | .error e => .error e
  | .ok query =>
    match lookupAdapter model with
    | .error e => .error e
    | .ok f =>
      match f query with
      | .error e => .error e
      | .ok req_data =>
        let ea := patchLimits req_data.engine_args
        Except.ok
          { kwargs := seedMerge ea seed,
            prompt := req_data.prompt,
            mm := mmDataOf req_data.image }

/-- Driver `run_score`: query build, adapter lookup and call, seed merge
(no limit patch), then the engine call payload. -/
def run_score (model modality : String) (seed : Option Int) : Except String ScoreCall :=
  match get_query modality with
  | .error e => .error e
  | .ok query =>
    match lookupAdapter model with
    | .error e => .error e
    | .ok f =>
      match f query with
      | .error e => .error e
      | .ok req_data =>
        Except.ok
          { kwargs := seedMerge req_data.engine_args seed,
            query := req_data.query,
            documents := req_data.documents }

/-- The observable outcome of `main`: which driver ran and what it handed
to the engine boundary. -/
inductive MainAction where
  | encoded (c : EncodeCall)
  | scored (c : ScoreCall)
  deriving DecidableEq, Repr

/-- `main`: dispatch on the task string to exactly one driver, raising
`ValueError` for any other task before anything else runs. -/
def main (model task modality : String) (seed : Option Int) : Except String MainAction :=
  if task = "embedding" then (run_encode model modality seed).map MainAction.encoded
  else if task = "scoring" then (run_score model modality seed).map MainAction.scored
  else Except.error ("Unsupported task: " ++ task)

/-- The (model key, modality) pairs whose adapter accepts the modality:
`e5_v` accepts text and image, `vlm2vec` accepts text, image and
text+image, `jinavl_reranker` accepts text+images. -/
def acceptedPairs : List (String × String) :=
  [("e5_v", "text"), ("e5_v", "image"),
   ("vlm2vec", "text"), ("vlm2vec", "image"), ("vlm2vec", "text+image"),
   ("jinavl_reranker", "text+images")]

/-- The `limit_mm_per_prompt` entry of a keyword-argument dictionary. -/
def kwargsLimits (kwargs : List (String × Value)) : Option (Option (List (String × Nat))) :=
  match pyLookup kwargs "limit_mm_per_prompt" with
  | some (.vOptDict d) => some d
  | _ => none

/-- Whether a step returned normally (`Except.ok`) rather than raising. -/
def succeeds {α : Type} (e : Except String α) : Bool :=
  match e with
  | .ok _ => true
  | .error _ => false

/-- The adapter output for model `e5_v` on the text sample query. -/
def sampleReq : ModelRequestData :=
  { engine_args :=
      { model := "royokong/e5-v", runner := "pooling", max_model_len := 4096,
        limit_mm_per_prompt := some [("image", 1)] },
    prompt := some (llama3_template
      "A dog sitting in the grass\nSummary above sentence in one word: "),
    image := none }

/-- The engine-boundary payload of `run_encode` for model `e5_v`, text
modality and no seed. -/
def sampleCall : EncodeCall :=
  { kwargs := seedMerge (patchLimits sampleReq.engine_args) none,
    prompt := sampleReq.prompt,
    mm := [] }

theorem exceptBind_ok {α β : Type} (a : α) (f : α → Except String β) :
    (Except.ok a >>= f) = f a := rfl

theorem exceptBind_error {α β : Type} (e : String) (f : α → Except String β) :
    ((Except.error e : Except String α) >>= f) = Except.error e := rfl

/-- When query build, adapter lookup and adapter call all return normally,
`run_encode` reaches the engine boundary with the patched-and-seeded
configuration, the adapter prompt and the multimodal payload built from
the adapter image. -/
theorem run_encode_eq (model modality : String) (seed : Option Int) (q : Query)
    (f : Query → Except String ModelRequestData) (req : ModelRequestData)
    (hq : get_query modality = Except.ok q) (hf : lookupAdapter model = Except.ok f)
    (hr : f q = Except.ok req) :
    run_encode model modality seed
      = Except.ok { kwargs := seedMerge (patchLimits req.engine_args) seed,
                    prompt := req.prompt, mm := mmDataOf req.image } := by
  unfold run_encode
  rw [hq]
  dsimp only
  rw [hf]
  dsimp only
  rw [hr]

/-- A successful dispatch-table lookup yields one of the three registered
adapters. -/
theorem lookupAdapter_cases (model : String) (f : Query → Except String ModelRequestData)
    (hf : lookupAdapter model = Except.ok f) :
    f = run_e5_v ∨ f = run_vlm2vec ∨ f = run_jinavl_reranker := by
  simp only [lookupAdapter, model_example_map, pyLookup] at hf
  split_ifs at hf <;> simp_all

/-- C1 counterexample: the claim that `run_score` hands the engine a
configuration with unused per-modality limits capped to zero exactly as
`run_encode` does is false. At model `jinavl_reranker`, modality
`text+images` and seed 0, `run_score` passes the adapter limit map
`image: 1` unchanged (no `video`/`audio` entries), while `run_encode`
passes `image: 1, video: 0, audio: 0`. -/
theorem run_score_limit_patch_cex :
    ¬ (∀ model modality : String, ∀ seed : Option Int,
        (model, modality) ∈ acceptedPairs →
          (run_score model modality seed).map (fun c => kwargsLimits c.kwargs)
            = (run_encode model modality seed).map (fun c => kwargsLimits c.kwargs)) := by
  intro h
  have hx := h "jinavl_reranker" "text+images" (some 0) (by decide)
  rw [show (run_score "jinavl_reranker" "text+images" (some 0)).map
          (fun c => kwargsLimits c.kwargs)
        = Except.ok (some (some [("image", 1)])) from rfl,
      show (run_encode "jinavl_reranker" "text+images" (some 0)).map
          (fun c => kwargsLimits c.kwargs)
        = Except.ok (some (some [("image", 1), ("video", 0), ("audio", 0)])) from rfl,
      Except.ok.injEq] at hx
  exact absurd hx (by decide)

/-- C1 (amended): for every model key and every modality its adapter
accepts, `run_score` injects the seed into the configuration handed to the
engine constructor exactly as `run_encode` does, but performs no limit
patch: the limit map it hands over is the adapter's own `image: 1`,
with the unused `video`/`audio` limits left absent rather than capped to
zero. -/
theorem run_score_seed_merge_only (model modality : String) (seed : Option Int)
    (h : (model, modality) ∈ acceptedPairs) :
    (run_score model modality seed).map (fun c => pyLookup c.kwargs "seed")
      = Except.ok (some (Value.vOptInt seed))
    ∧ (run_encode model modality seed).map (fun c => pyLookup c.kwargs "seed")
      = Except.ok (some (Value.vOptInt seed))
    ∧ (run_score model modality seed).map (fun c => kwargsLimits c.kwargs)
      = Except.ok (some (some [("image", 1)])) := by
  simp only [acceptedPairs, List.mem_cons, List.not_mem_nil, or_false, Prod.mk.injEq] at h
  rcases h with ⟨h1, h2⟩ | ⟨h1, h2⟩ | ⟨h1, h2⟩ | ⟨h1, h2⟩ | ⟨h1, h2⟩ | ⟨h1, h2⟩ <;>
    subst h1 <;> subst h2 <;> exact ⟨rfl, rfl, rfl⟩

/-- C1 witness: the amended statement at model `jinavl_reranker`,
modality `text+images`, seed 7. -/
theorem run_score_seed_merge_only_witness :
    (run_score "jinavl_reranker" "text+images" (some 7)).map
        (fun c => pyLookup c.kwargs "seed")
      = Except.ok (some (Value.vOptInt (some 7)))
    ∧ (run_encode "jinavl_reranker" "text+images" (some 7)).map
        (fun c => pyLookup c.kwargs "seed")
      = Except.ok (some (Value.vOptInt (some 7)))
    ∧ (run_score "jinavl_reranker" "text+images" (some 7)).map
        (fun c => kwargsLimits c.kwargs)
      = Except.ok (some (some [("image", 1)])) :=
  run_score_seed_merge_only "jinavl_reranker" "text+images" (some 7) (by decide)

/-- C2: for every model key and every modality its adapter accepts, the
limit-merging step of `run_encode` hands the engine a per-modality limit
map in which `video` and `audio` are zero and `image` retains the
adapter-assigned value 1. -/
theorem run_encode_limit_merge (model modality : String) (seed : Option Int)
    (h : (model, modality) ∈ acceptedPairs) :
    (run_encode model modality seed).map (fun c => kwargsLimits c.kwargs)
      = Except.ok (some (some [("image", 1), ("video", 0), ("audio", 0)])) := by
  simp only [acceptedPairs, List.mem_cons, List.not_mem_nil, or_false, Prod.mk.injEq] at h
  rcases h with ⟨h1, h2⟩ | ⟨h1, h2⟩ | ⟨h1, h2⟩ | ⟨h1, h2⟩ | ⟨h1, h2⟩ | ⟨h1, h2⟩ <;>
    subst h1 <;> subst h2 <;> rfl

/-- C2 witness: the limit merge at model `e5_v`, modality `text`, no
seed. -/
theorem run_encode_limit_merge_witness :
    (run_encode "e5_v" "text" none).map (fun c => kwargsLimits c.kwargs)
      = Except.ok (some (some [("image", 1), ("video", 0), ("audio", 0)])) :=
  run_encode_limit_merge "e5_v" "text" none (by decide)

/-- C3: for model `e5_v` with modality `text`, the query builder returns
the text variant holding "A dog sitting in the grass", and the adapter
returns exactly the llama3-formatted prompt, no image, and the engine
model identifier `royokong/e5-v`. -/
theorem e5_v_text_scenario :
    get_query "text" = Except.ok (Query.textQ "A dog sitting in the grass")
    ∧ (run_e5_v (Query.textQ "A dog sitting in the grass")).map ModelRequestData.prompt
        = Except.ok (some "<|start_header_id|>user<|end_header_id|>\n\nA dog sitting in the grass\nSummary above sentence in one word: <|eot_id|><|start_header_id|>assistant<|end_header_id|>\n\n \n")
    ∧ (run_e5_v (Query.textQ "A dog sitting in the grass")).map ModelRequestData.image
        = Except.ok none
    ∧ (run_e5_v (Query.textQ "A dog sitting in the grass")).map
          (fun r => r.engine_args.model)
        = Except.ok "royokong/e5-v" :=
  ⟨rfl, rfl, rfl, rfl⟩

/-- C4: the seed-merge step used by both drivers
(`asdict(engine_args) | ("seed": seed)`) yields exactly the dictionary of
the input configuration with the `seed` field set to the given seed and
every other field unchanged. -/
theorem seedMerge_sets_seed_only (ea : EngineArgs) (seed : Option Int) :
    seedMerge ea seed = asdict { ea with seed := seed }
    ∧ pyLookup (seedMerge ea seed) "seed" = some (Value.vOptInt seed) :=
  ⟨rfl, rfl⟩

/-- C5: `run_e5_v` returns a result exactly for `text` and `image`,
`run_vlm2vec` exactly for `text`, `image` and `text+image`,
`run_jinavl_reranker` exactly for `text+images`, and each adapter raises
the unsupported-modality `ValueError` for every other modality, including
modalities accepted by the other adapters. -/
theorem adapter_modality_acceptance (q : Query) :
    (succeeds (run_e5_v q) = true ↔ (q.modality = "text" ∨ q.modality = "image"))
    ∧ (¬(q.modality = "text" ∨ q.modality = "image") →
        run_e5_v q = Except.error ("Unsupported query modality: \x27" ++ q.modality ++ "\x27"))
    ∧ (succeeds (run_vlm2vec q) = true ↔
        (q.modality = "text" ∨ q.modality = "image" ∨ q.modality = "text+image"))
    ∧ (¬(q.modality = "text" ∨ q.modality = "image" ∨ q.modality = "text+image") →
        run_vlm2vec q = Except.error ("Unsupported query modality: \x27" ++ q.modality ++ "\x27"))
    ∧ (succeeds (run_jinavl_reranker q) = true ↔ q.modality = "text+images")
    ∧ (q.modality ≠ "text+images" →
        run_jinavl_reranker q
          = Except.error ("Unsupported query modality: \x27" ++ q.modality ++ "\x27")) := by
  cases q <;>
    simp [run_e5_v, run_vlm2vec, run_jinavl_reranker, Query.modality, succeeds,
      exceptBind_ok, exceptBind_error]

/-- C5 witness: the `text+images` sample query is rejected by `run_e5_v`
and `run_vlm2vec` with the unsupported-modality error. -/
theorem adapter_modality_acceptance_witness :
    run_e5_v (Query.textImagesQ "slm markdown" jina_documents)
        = Except.error "Unsupported query modality: \x27text+images\x27"
    ∧ run_vlm2vec (Query.textImagesQ "slm markdown" jina_documents)
        = Except.error "Unsupported query modality: \x27text+images\x27" :=
  ⟨(adapter_modality_acceptance (Query.textImagesQ "slm markdown" jina_documents)).2.1
      (by decide),
   (adapter_modality_acceptance (Query.textImagesQ "slm markdown" jina_documents)).2.2.2.1
      (by decide)⟩

/-- C6: `run_jinavl_reranker` raises the unsupported-modality error on
every query whose modality is not `text+images`, and in particular
`run_encode`/`run_score` on model `jinavl_reranker` with modality `image`
return that error: no engine configuration reaches the engine boundary
(the result is `Except.error`, not an `EncodeCall`/`ScoreCall`). -/
theorem jinavl_rejects_other_modalities (q : Query) (seed : Option Int)
    (h : q.modality ≠ "text+images") :
    run_jinavl_reranker q
        = Except.error ("Unsupported query modality: \x27" ++ q.modality ++ "\x27")
    ∧ run_encode "jinavl_reranker" "image" seed
        = Except.error "Unsupported query modality: \x27image\x27"
    ∧ run_score "jinavl_reranker" "image" seed
        = Except.error "Unsupported query modality: \x27image\x27" := by
  refine ⟨?_, rfl, rfl⟩
  cases q <;> first
    | rfl
    | exact absurd rfl h

/-- C6 witness: the rejection at the fetched sample image query with no
seed. -/
theorem jinavl_rejects_other_modalities_witness :
    run_jinavl_reranker (Query.imageQ (fetch_image
        "https://upload.wikimedia.org/wikipedia/commons/thumb/4/47/American_Eskimo_Dog.jpg/360px-American_Eskimo_Dog.jpg"))
        = Except.error "Unsupported query modality: \x27image\x27"
    ∧ run_encode "jinavl_reranker" "image" none
        = Except.error "Unsupported query modality: \x27image\x27"
    ∧ run_score "jinavl_reranker" "image" none
        = Except.error "Unsupported query modality: \x27image\x27" :=
  jinavl_rejects_other_modalities
    (Query.imageQ (fetch_image
      "https://upload.wikimedia.org/wikipedia/commons/thumb/4/47/American_Eskimo_Dog.jpg/360px-American_Eskimo_Dog.jpg"))
    none (by decide)

/-- C7: for each of the four modality tags the query builder returns a
variant whose modality tag equals the requested one, and for any other
string it raises the unsupported-modality error. -/
theorem get_query_modality_spec (modality : String) :
    (get_query modality).map Query.modality =
      (if modality = "text" ∨ modality = "image" ∨ modality = "text+image"
          ∨ modality = "text+images"
        then Except.ok modality
        else Except.error ("Modality " ++ modality ++ " is not supported.")) := by
  by_cases h1 : modality = "text"
  · simp [get_query, h1, Query.modality, Except.map]
  · by_cases h2 : modality = "image"
    · simp [get_query, h1, h2, Query.modality, Except.map]
    · by_cases h3 : modality = "text+image"
      · simp [get_query, h1, h2, h3, Query.modality, Except.map]
      · by_cases h4 : modality = "text+images"
        · simp [get_query, h1, h2, h3, h4, Query.modality, Except.map]
        · simp [get_query, h1, h2, h3, h4, Except.map]

/-- C8: `main` runs `run_encode` exactly when the task is `embedding` and
`run_score` exactly when it is `scoring`; any other task value yields the
explicit error naming the task, for every model, modality and seed (so
before the query builder, any adapter or the engine could run). -/
theorem main_task_dispatch (model task modality : String) (seed : Option Int) :
    (task = "embedding" →
        main model task modality seed = (run_encode model modality seed).map MainAction.encoded)
    ∧ (task = "scoring" →
        main model task modality seed = (run_score model modality seed).map MainAction.scored)
    ∧ (task ≠ "embedding" → task ≠ "scoring" →
        main model task modality seed = Except.error ("Unsupported task: " ++ task)) := by
  refine ⟨fun h => ?_, fun h => ?_, fun h1 h2 => ?_⟩
  · simp [main, h]
  · simp [main, h]
  · simp [main, h1, h2]

/-- C8 witness: the three dispatch branches at concrete tasks. -/
theorem main_task_dispatch_witness :
    main "e5_v" "embedding" "text" none
        = (run_encode "e5_v" "text" none).map MainAction.encoded
    ∧ main "e5_v" "scoring" "text" none
        = (run_score "e5_v" "text" none).map MainAction.scored
    ∧ main "e5_v" "cooking" "text" none = Except.error "Unsupported task: cooking" :=
  ⟨(main_task_dispatch "e5_v" "embedding" "text" none).1 rfl,
   (main_task_dispatch "e5_v" "scoring" "text" none).2.1 rfl,
   (main_task_dispatch "e5_v" "cooking" "text" none).2.2 (by decide) (by decide)⟩

/-- C9: the multimodal payload of `run_encode` contains an `image` entry
exactly when the adapter returned an image, and for the `text` modality
(where every adapter that returns at all sets no image) the payload is the
empty map. -/
theorem run_encode_mm_payload (model modality : String) (seed : Option Int)
    (f : Query → Except String ModelRequestData) (q : Query) (req : ModelRequestData)
    (c : EncodeCall)
    (hf : lookupAdapter model = Except.ok f)
    (hq : get_query modality = Except.ok q)
    (hr : f q = Except.ok req)
    (hc : run_encode model modality seed = Except.ok c) :
    (pyLookup c.mm "image").isSome = req.image.isSome
    ∧ (modality = "text" → c.mm = []) := by
  rw [run_encode_eq model modality seed q f req hq hf hr] at hc
  injection hc with hc'
  constructor
  · rw [← hc']
    cases req.image <;> simp [mmDataOf, pyLookup]
  · intro hm
    subst hm
    have hq' : Except.ok (Query.textQ "A dog sitting in the grass") = Except.ok q := hq
    injection hq' with hq''
    subst hq''
    rcases lookupAdapter_cases model f hf with hfe | hfe | hfe <;> subst hfe
    · have hr' : Except.ok
          ({ engine_args :=
              { model := "royokong/e5-v", runner := "pooling", max_model_len := 4096,
                limit_mm_per_prompt := some [("image", 1)] },
             prompt := some (llama3_template
               "A dog sitting in the grass\nSummary above sentence in one word: "),
             image := none } : ModelRequestData) = Except.ok req := hr
      injection hr' with hr''
      rw [← hc', ← hr'']
      rfl
    · have hr' : Except.ok
          ({ engine_args :=
              { model := "TIGER-Lab/VLM2Vec-Full", runner := "pooling", max_model_len := 4096,
                trust_remote_code := true,
                mm_processor_kwargs := some [("num_crops", 4)],
                limit_mm_per_prompt := some [("image", 1)] },
             prompt := some
               "Find me an everyday image that matches the given caption: A dog sitting in the grass",
             image := none } : ModelRequestData) = Except.ok req := hr
      injection hr' with hr''
      rw [← hc', ← hr'']
      rfl
    · exact absurd hr (by simp [run_jinavl_reranker])

/-- C9 witness: the payload at model `e5_v`, modality `text`, no seed. -/
theorem run_encode_mm_payload_witness :
    (pyLookup sampleCall.mm "image").isSome = sampleReq.image.isSome
    ∧ sampleCall.mm = [] :=
  ⟨(run_encode_mm_payload "e5_v" "text" none run_e5_v
      (Query.textQ "A dog sitting in the grass") sampleReq sampleCall rfl rfl rfl rfl).1,
   (run_encode_mm_payload "e5_v" "text" none run_e5_v
      (Query.textQ "A dog sitting in the grass") sampleReq sampleCall rfl rfl rfl rfl).2 rfl⟩

/-- C10: every request an adapter returns carries an engine configuration
with runner `pooling` and per-prompt multimodal limit map `image: 1`. -/
theorem adapter_config_invariant (q : Query) (req : ModelRequestData)
    (h : run_e5_v q = Except.ok req ∨ run_vlm2vec q = Except.ok req
        ∨ run_jinavl_reranker q = Except.ok req) :
    req.engine_args.runner = "pooling"
    ∧ req.engine_args.limit_mm_per_prompt = some [("image", 1)] := by
  rcases h with h | h | h <;> cases q <;>
    first
      | (injection h with h'; rw [← h']; exact ⟨rfl, rfl⟩)
      | exact absurd h (by simp [run_e5_v, run_vlm2vec, run_jinavl_reranker,
          exceptBind_ok, exceptBind_error])

/-- C10 witness: the invariant at the `e5_v` text request. -/
theorem adapter_config_invariant_witness :
    sampleReq.engine_args.runner = "pooling"
    ∧ sampleReq.engine_args.limit_mm_per_prompt = some [("image", 1)] :=
  adapter_config_invariant (Query.textQ "A dog sitting in the grass") sampleReq
    (Or.inl rfl)

end VLPool
